import Mathlib

/-!
Shallow embedding of the blog-code backend (Flask SPA host), covering:

* `backend/main.py` — the `create_app` startup check and the `serve_spa`
  static/SPA resolver (percent-decoding, traversal rejection, API-prefix
  exclusion, file lookup, entry-document fallback);
* `backend/config.py` and the top-level `config.py` — the pydantic
  `DBSettings` hierarchy, its environment-variable namespaces, the
  `_db_settings` profile resolution with its `except KeyError` fallback,
  and the `url` connection-string property;
* `api/routes/health.py` — the `/health/db` and `/health/github` probes;
* `infrastructure/persistence/database.py` — `get_engine` / `get_db`,
  whose `from config import get_db_settings` import is resolved against
  the names the config modules actually define.

Machine strings are Lean `String`s; environments are association lists
`List (String × String)`; fallible I/O (file-system probes, the outbound
HTTP request, the database round trip) is passed in explicitly as data,
and Python exceptions are `Except` errors.
-/

deriving instance DecidableEq for Except

namespace BlogCode

/-! ## Percent decoding: `urllib.parse.unquote`, byte-level model

`unquote` replaces each `%XX` escape (two hex digits) by the character of
that byte value and leaves invalid escapes untouched.  For the ASCII
substrings the resolver checks (`".."`, `"\"`) this byte-level model agrees
with Python's UTF-8 decoding: bytes below 0x80 decode to themselves and
multi-byte sequences never produce ASCII characters. -/

def isHexDigit (c : Char) : Bool :=
  c.isDigit || ('a' ≤ c && c ≤ 'f') || ('A' ≤ c && c ≤ 'F')

def hexVal (c : Char) : Nat :=
  if c.isDigit then c.toNat - 48
  else if 'a' ≤ c then c.toNat - 87
  else c.toNat - 55

/-- Decoding loop with explicit fuel (structural recursion so that the
kernel can evaluate it); every step consumes at least one character, so
fuel equal to the input length never runs out. -/
def unquoteAux : Nat → List Char → List Char
  | _, [] => []
  | 0, l => l
  | fuel + 1, '%' :: h1 :: h2 :: rest =>
    if isHexDigit h1 && isHexDigit h2 then
      Char.ofNat (16 * hexVal h1 + hexVal h2) :: unquoteAux fuel rest
    else
      '%' :: unquoteAux fuel (h1 :: h2 :: rest)
  | fuel + 1, c :: rest => c :: unquoteAux fuel rest

def unquote (s : String) : String := ⟨unquoteAux s.data.length s.data⟩

/-! ## Static resolver: `backend/main.py`, `serve_spa`

The file system under `build_dir` is modelled as two fallible probes,
`isFile` for `(build_dir / path).is_file()` and `pathExists` for
`(build_dir / "index.html").exists()`; an `Except.error` models an
`OSError` / `ValueError` raised by the probe. -/

structure Fs where
  isFile : String → Except String Bool
  pathExists : String → Except String Bool

inductive SpaOutcome where
  | invalidPath
  | notFound
  | file (p : String)
  | index
  | unavailable
deriving DecidableEq, Repr

def SpaOutcome.status : SpaOutcome → Nat
  | .invalidPath => 400
  | .notFound => 404
  | .file _ => 200
  | .index => 200
  | .unavailable => 503

def SpaOutcome.body : SpaOutcome → List (String × String)
  | .invalidPath => [("error", "Invalid path")]
  | .notFound => [("error", "Not found")]
  | .file p => [("send_from_directory", p)]
  | .index => [("send_from_directory", "index.html")]
  | .unavailable => [("error", "Service unavailable")]

/-- Test whether the second character list starts with the first
(`str.startswith(pat)` on the underlying characters). -/
def listIsPre : List Char → List Char → Bool
  | [], _ => true
  | _ :: _, [] => false
  | p :: ps, c :: cs => p == c && listIsPre ps cs

/-- Test whether a character list starts with the two characters `..`. -/
def startsWithDD : List Char → Bool
  | '.' :: '.' :: _ => true
  | _ => false

/-- Test whether a character list contains `..` as a contiguous substring. -/
def containsDD : List Char → Bool
  | [] => false
  | c :: rest => startsWithDD (c :: rest) || containsDD rest

/-- Traversal check of `serve_spa`: decode the path twice with `unquote`
and test whether the result contains the substring `..` or a backslash. -/
def pathRejected (path : String) : Bool :=
  let decoded := unquote (unquote path)
  containsDD decoded.data || decoded.data.contains '\\'

/-- Embedding of `serve_spa` from `backend/main.py`.  The result is
`Except.error e` when an exception `e` escapes the handler; `Except.ok`
carries the returned response.  The `try`/`except (OSError, ValueError)`
around the `file_path.is_file()` check turns a probe fault into
fall-through; the `index_path.exists()` check is not wrapped in any
handler, so a fault there propagates. -/
def serve_spa (fs : Fs) (path : String) : Except String SpaOutcome :=
  if pathRejected path then
    .ok .invalidPath
  else if listIsPre "api/".data path.data then
    .ok .notFound
  else
    let step5 : Option SpaOutcome :=
      if path ≠ "" then
        match fs.isFile path with
        | .ok true => some (.file path)
        | .ok false => none
        | .error _ => none
      else none
    match step5 with
    | some out => .ok out
    | none =>
      match fs.pathExists "index.html" with
      | .error e => .error e
      | .ok false => .ok .unavailable
      | .ok true => .ok .index

/-! ## Startup check: `backend/main.py`, `create_app`

`create_app` reads `FLASK_ENV` from the environment (defaulting to the
`FlaskEnv.PRODUCTION` value, the string `"PRODUCTION"`); when the build
directory is missing it raises `RuntimeError` in production and only logs
a warning otherwise. -/

inductive StartupResult where
  | fatalError (msg : String)
  | warned
  | started
deriving DecidableEq, Repr

def StartupResult.isFatal : StartupResult → Bool
  | .fatalError _ => true
  | _ => false

def create_app_startup (buildDirExists : Bool) (flaskEnvVar : Option String) :
    StartupResult :=
  let flask_env := flaskEnvVar.getD "PRODUCTION"
  if !buildDirExists then
    if flask_env = "PRODUCTION" then
      .fatalError "Frontend build directory not found. Run npm run build first."
    else
      .warned
  else
    .started

/-! ## Environment lookup

Process environments are association lists; `lookupEnv` models both
`os.environ[k]` (first match wins) and the pydantic-settings env lookup. -/

def lookupEnv (environ : List (String × String)) (k : String) : Option String :=
  (environ.find? (fun kv => kv.1 == k)).map (fun kv => kv.2)

/-! ## Configuration: `backend/config.py`

`DBSettings` fields: `DB_HOST` (alias `DB_HOST`, default `"localhost"`),
required `DB_NAME` / `DB_USER` / `DB_PASSWORD`, and `FLASK_ENV`
(enum-parsed).  Each subclass redeclares `FLASK_ENV` (dropping the base
alias) and sets its own `env_prefix`: `""` for `ProductionDBSettings`,
`"LOCAL_"` for `DevDBSettings` and `TestDBSettings`.  `DB_HOST` keeps its
inherited `validation_alias`, so it is read unprefixed in every variant. -/

namespace BackendConfig

inductive FlaskEnv where
  | PRODUCTION
  | DEVELOPMENT
  | TESTING
deriving DecidableEq, Repr

/-- Lookup of a string in the `FlaskEnv` `StrEnum`; member names and
values coincide, so this serves both `FlaskEnv[s]` (by name, in
`_db_settings`) and pydantic enum parsing (by value). -/
def FlaskEnv.ofString (s : String) : Option FlaskEnv :=
  if s = "PRODUCTION" then some .PRODUCTION
  else if s = "DEVELOPMENT" then some .DEVELOPMENT
  else if s = "TESTING" then some .TESTING
  else none

/-- The `env_prefix` of each registered `DBSettings` subclass. -/
def pfxOf : FlaskEnv → String
  | .PRODUCTION => ""
  | .DEVELOPMENT => "LOCAL_"
  | .TESTING => "LOCAL_"

/-- Environment-variable name a variant reads a given field from:
the variant prefix followed by the field name. -/
def envVarName (e : FlaskEnv) (field : String) : String :=
  pfxOf e ++ field

structure DBSettings where
  DB_HOST : String
  DB_NAME : String
  DB_USER : String
  DB_PASSWORD : String
  FLASK_ENV : FlaskEnv
deriving DecidableEq, Repr

/-- Required fields whose environment variable (under the variant's
prefix) is absent, in field-declaration order. -/
def missingOf (e : FlaskEnv) (environ : List (String × String)) : List String :=
  ["DB_NAME", "DB_USER", "DB_PASSWORD"].filter
    (fun f => (lookupEnv environ (pfxOf e ++ f)).isNone)

/-- Whether the variant's `FLASK_ENV` environment variable is present but
parses to no `FlaskEnv` member (an enum validation failure). -/
def flaskEnvBadOf (e : FlaskEnv) (environ : List (String × String)) : Bool :=
  match lookupEnv environ (pfxOf e ++ "FLASK_ENV") with
  | none => false
  | some v => (FlaskEnv.ofString v).isNone

/-- Pydantic construction of a `DBSettings` variant from the environment:
required fields missing from the environment produce a validation error
naming each of them; an unparseable `FLASK_ENV` value produces a
validation error naming `FLASK_ENV`; `DB_HOST` defaults to
`"localhost"`. -/
def constructSettings (e : FlaskEnv) (environ : List (String × String)) :
    Except (List String) DBSettings :=
  let pfx := pfxOf e
  if (missingOf e environ).isEmpty && !flaskEnvBadOf e environ then
    .ok { DB_HOST := (lookupEnv environ "DB_HOST").getD "localhost"
        , DB_NAME := (lookupEnv environ (pfx ++ "DB_NAME")).getD ""
        , DB_USER := (lookupEnv environ (pfx ++ "DB_USER")).getD ""
        , DB_PASSWORD := (lookupEnv environ (pfx ++ "DB_PASSWORD")).getD ""
        , FLASK_ENV :=
            ((lookupEnv environ (pfx ++ "FLASK_ENV")).bind FlaskEnv.ofString).getD e }
  else
    .error (missingOf e environ ++
      (if flaskEnvBadOf e environ then ["FLASK_ENV"] else []))

/-- The `url` property: the formatted `PostgresDsn` connection string
(`str` of a `PostgresDsn` built from a well-formed URI of this shape is
the string itself, as the repository's own unit tests assert). -/
def DBSettings.url (s : DBSettings) : String :=
  "postgresql+psycopg2://" ++ s.DB_USER ++ ":" ++ s.DB_PASSWORD ++ "@"
    ++ s.DB_HOST ++ "/" ++ s.DB_NAME

/-- The value the line `env = flask_env or os.environ["FLASK_ENV"]`
settles on: the argument when it is truthy (present and non-empty),
otherwise the environment variable; `none` models the `KeyError` of a
missing variable. -/
def effectiveHint (flask_env : Option String)
    (environ : List (String × String)) : Option String :=
  match flask_env with
  | some s => if s = "" then lookupEnv environ "FLASK_ENV" else some s
  | none => lookupEnv environ "FLASK_ENV"

/-- Whether the effective hint is absent or matches no `FlaskEnv` member,
i.e. whether `FlaskEnv[env]` raises the `KeyError` that `_db_settings`
catches. -/
def hintUnrecognized (flask_env : Option String)
    (environ : List (String × String)) : Bool :=
  match effectiveHint flask_env environ with
  | none => true
  | some s => (FlaskEnv.ofString s).isNone

/-- Embedding of `_db_settings`: the effective hint selects a subclass in
the registry; a `KeyError` from the missing variable or from
`FlaskEnv[env]` is caught and falls back to `ProductionDBSettings()`.  A
`ValidationError` from the constructor is not a `KeyError` and
propagates. -/
def _db_settings (flask_env : Option String) (environ : List (String × String)) :
    Except (List String) DBSettings :=
  match effectiveHint flask_env environ with
  | none => constructSettings .PRODUCTION environ
  | some s =>
    match FlaskEnv.ofString s with
    | none => constructSettings .PRODUCTION environ
    | some e => constructSettings e environ

/-- Variant selected by `_db_settings` (the registry lookup with its
`except KeyError` fallback), a total function of hint and environment. -/
def selectedVariant (flask_env : Option String)
    (environ : List (String × String)) : FlaskEnv :=
  match effectiveHint flask_env environ with
  | none => .PRODUCTION
  | some s => (FlaskEnv.ofString s).getD .PRODUCTION

/-- Top-level names defined or imported by the module `backend/config.py`. -/
def module_names : List String :=
  ["os", "StrEnum", "lru_cache", "Path", "ClassVar", "Field", "PostgresDsn",
   "BaseSettings", "SettingsConfigDict", "FlaskEnv", "FlaskSettings",
   "DBSettings", "TestDBSettings", "DevDBSettings", "ProductionDBSettings",
   "_db_settings", "get_db_url"]

end BackendConfig

/-! ## Configuration: top-level `config.py`

The second, divergent copy of the settings module: its `FlaskEnv` has only
`PRODUCTION` and `DEVELOPMENT`, and `ProductionDBSettings` sets
`env_prefix="CPANEL_"` (not `""`). -/

namespace SrcConfig

inductive FlaskEnv where
  | PRODUCTION
  | DEVELOPMENT
deriving DecidableEq, Repr

def FlaskEnv.ofString (s : String) : Option FlaskEnv :=
  if s = "PRODUCTION" then some .PRODUCTION
  else if s = "DEVELOPMENT" then some .DEVELOPMENT
  else none

/-- The `env_prefix` of each registered subclass in `config.py`:
`CPANEL_` for production, `LOCAL_` for development. -/
def pfxOf : FlaskEnv → String
  | .PRODUCTION => "CPANEL_"
  | .DEVELOPMENT => "LOCAL_"

def envVarName (e : FlaskEnv) (field : String) : String :=
  pfxOf e ++ field

structure DBSettings where
  DB_HOST : String
  DB_NAME : String
  DB_USER : String
  DB_PASSWORD : String
  FLASK_ENV : FlaskEnv
deriving DecidableEq, Repr

def missingOf (e : FlaskEnv) (environ : List (String × String)) : List String :=
  ["DB_NAME", "DB_USER", "DB_PASSWORD"].filter
    (fun f => (lookupEnv environ (pfxOf e ++ f)).isNone)

def flaskEnvBadOf (e : FlaskEnv) (environ : List (String × String)) : Bool :=
  match lookupEnv environ (pfxOf e ++ "FLASK_ENV") with
  | none => false
  | some v => (FlaskEnv.ofString v).isNone

def constructSettings (e : FlaskEnv) (environ : List (String × String)) :
    Except (List String) DBSettings :=
  let pfx := pfxOf e
  if (missingOf e environ).isEmpty && !flaskEnvBadOf e environ then
    .ok { DB_HOST := (lookupEnv environ "DB_HOST").getD "localhost"
        , DB_NAME := (lookupEnv environ (pfx ++ "DB_NAME")).getD ""
        , DB_USER := (lookupEnv environ (pfx ++ "DB_USER")).getD ""
        , DB_PASSWORD := (lookupEnv environ (pfx ++ "DB_PASSWORD")).getD ""
        , FLASK_ENV :=
            ((lookupEnv environ (pfx ++ "FLASK_ENV")).bind FlaskEnv.ofString).getD e }
  else
    .error (missingOf e environ ++
      (if flaskEnvBadOf e environ then ["FLASK_ENV"] else []))

def DBSettings.url (s : DBSettings) : String :=
  "postgresql+psycopg2://" ++ s.DB_USER ++ ":" ++ s.DB_PASSWORD ++ "@"
    ++ s.DB_HOST ++ "/" ++ s.DB_NAME

def _db_settings (flask_env : Option String) (environ : List (String × String)) :
    Except (List String) DBSettings :=
  let hint : Option String :=
    match flask_env with
    | some s => if s = "" then lookupEnv environ "FLASK_ENV" else some s
    | none => lookupEnv environ "FLASK_ENV"
  match hint with
  | none => constructSettings .PRODUCTION environ
  | some s =>
    match FlaskEnv.ofString s with
    | none => constructSettings .PRODUCTION environ
    | some e => constructSettings e environ

/-- Top-level names defined or imported by the module `config.py`. -/
def module_names : List String :=
  ["os", "StrEnum", "lru_cache", "ClassVar", "Field", "PostgresDsn",
   "BaseSettings", "SettingsConfigDict", "FlaskEnv", "DBSettings",
   "DevDBSettings", "ProductionDBSettings", "_db_settings", "get_db_url"]

end SrcConfig

/-! ## Health probes: `api/routes/health.py` and the database module -/

namespace Health

structure HealthResponse where
  status : Nat
  body : List (String × String)
deriving DecidableEq, Repr

/-- Outcome of the outbound `requests.get` call: a received response with
its status code, or a transport-level failure (timeout, DNS, connection
refused), all of which are `RequestException`s. -/
inductive HttpResult where
  | response (status : Nat)
  | transportFailure (e : String)
deriving DecidableEq, Repr

/-- Embedding of `requests.Response.raise_for_status`: raises `HTTPError`
(a `RequestException`) exactly for client-error and server-error status
codes, 400 ≤ status < 600. -/
def raise_for_status (status : Nat) : Except String Unit :=
  if 400 ≤ status ∧ status < 600 then .error "HTTPError" else .ok ()

def github_healthy : HealthResponse :=
  ⟨200, [("status", "healthy"), ("github", "reachable")]⟩

def github_unhealthy : HealthResponse :=
  ⟨503, [("status", "unhealthy"), ("github", "unreachable")]⟩

/-- Embedding of `health_github`: `requests.get(..., timeout=5)` followed
by `raise_for_status`, with every `RequestException` caught and mapped to
the 503 payload.  Totality of this function is the probe's no-escape
boundary. -/
def health_github (r : HttpResult) : HealthResponse :=
  match r with
  | .transportFailure _ => github_unhealthy
  | .response s =>
    match raise_for_status s with
    | .error _ => github_unhealthy
    | .ok _ => github_healthy

def db_healthy : HealthResponse :=
  ⟨200, [("status", "healthy"), ("database", "connected")]⟩

def db_unhealthy : HealthResponse :=
  ⟨503, [("status", "unhealthy"), ("database", "unreachable")]⟩

end Health

namespace Database

/-- Resolution of `from config import get_db_settings` in
`infrastructure/persistence/database.py` against the names the `config`
module defines: importing a name the module does not define raises
`ImportError`. -/
def lookup_get_db_settings : Except String Unit :=
  if SrcConfig.module_names.contains "get_db_settings" then .ok ()
  else .error "ImportError: cannot import name get_db_settings from config"

/-- The value of a successfully loaded `database.py` module: `get_db`
yields a session; executing `SELECT 1` on it succeeds exactly when the
database round trip does. -/
structure DatabaseModule where
  get_db : Bool → Except String Unit

/-- Module initialization of `infrastructure/persistence/database.py`:
its body runs `from config import get_db_settings` at import time, so
the module loads only if that name resolves; only a loaded module
provides `get_engine`/`get_db` at all.  `Except.error` is the
`ImportError` escaping the module load. -/
def database_module : Except String DatabaseModule :=
  match lookup_get_db_settings with
  | .error e => .error e
  | .ok _ =>
    .ok ⟨fun dbRoundTrip =>
      if dbRoundTrip then .ok () else .error "OperationalError"⟩

end Database

namespace Health

/-- The value of a successfully loaded `api/routes/health.py` module:
`health_db` is the `/health/db` handler (run `next(get_db())`, execute
`SELECT 1`, catch every exception into the 503 payload). -/
structure HealthModule where
  health_db : Bool → HealthResponse

/-- Module initialization of `api/routes/health.py`: its body runs
`from infrastructure.persistence.database import get_db` at import time,
so it loads only if `database.py` loads. -/
def health_module : Except String HealthModule :=
  match Database.database_module with
  | .error e => .error e
  | .ok dbm =>
    .ok ⟨fun dbRoundTrip =>
      match dbm.get_db dbRoundTrip with
      | .ok _ => db_healthy
      | .error _ => db_unhealthy⟩

/-- Startup and dispatch of one `GET /health/db` request: `main.py` runs
`from backend.api.routes.health import health_bp` at module load and
`create_app` registers the blueprint, so a request reaches the handler
only when the import chain succeeded; a load failure escapes at startup
and no request is ever served. -/
def serve_health_db (dbRoundTrip : Bool) : Except String HealthResponse :=
  match health_module with
  | .error e => .error e
  | .ok m => .ok (m.health_db dbRoundTrip)

end Health

/-! ## Theorems about the claims -/

/-- Claim C1: for every raw request path whose twice-percent-decoded form
contains the substring `..` or any backslash character, static-path
resolution returns the 400 "Invalid path" outcome, regardless of where in
the path the offending sequence occurs, and before any other outcome is
considered (the result does not depend on the file system). -/
theorem serve_spa_rejects_traversal (fs : Fs) (path : String)
    (h : containsDD (unquote (unquote path)).data = true ∨
      (unquote (unquote path)).data.contains '\\' = true) :
    serve_spa fs path = .ok .invalidPath ∧
      SpaOutcome.invalidPath.status = 400 ∧
      SpaOutcome.invalidPath.body = [("error", "Invalid path")] := by
  have hpr : pathRejected path = true := by
    simp only [pathRejected]
    rw [Bool.or_eq_true]
    exact h
  refine ⟨?_, rfl, rfl⟩
  simp [serve_spa, hpr]

/-- Witness for C1 at the double-encoded traversal path `%252e%252e/pw`
and a file system where every candidate file exists. -/
theorem serve_spa_rejects_traversal_witness :
    serve_spa ⟨fun _ => Except.ok true, fun _ => Except.ok true⟩ "%252e%252e/pw"
      = .ok .invalidPath :=
  (serve_spa_rejects_traversal ⟨fun _ => Except.ok true, fun _ => Except.ok true⟩
    "%252e%252e/pw" (Or.inl (by decide))).1

/-- Claim C9: for every request path that begins with the reserved prefix
`api/` (checked on the non-decoded path, once the traversal check has not
rejected it), resolution returns the 404 "Not found" JSON outcome —
independently of the file system, so it never returns HTML content. -/
theorem serve_spa_api_prefix_not_found (fs : Fs) (path : String)
    (hck : pathRejected path = false)
    (hapi : listIsPre "api/".data path.data = true) :
    serve_spa fs path = .ok .notFound ∧
      SpaOutcome.notFound.status = 404 ∧
      SpaOutcome.notFound.body = [("error", "Not found")] ∧
      (∀ p, serve_spa fs path ≠ .ok (.file p)) ∧
      serve_spa fs path ≠ .ok .index := by
  have hmain : serve_spa fs path = .ok .notFound := by
    simp [serve_spa, hck, hapi]
  refine ⟨hmain, rfl, rfl, ?_, ?_⟩
  · intro p hcontra
    rw [hmain] at hcontra
    cases hcontra
  · intro hcontra
    rw [hmain] at hcontra
    cases hcontra

/-- Witness for C9 at the path `api/users`, with a file system where
every candidate file exists (`index.html` included). -/
theorem serve_spa_api_prefix_not_found_witness :
    serve_spa ⟨fun _ => Except.ok true, fun _ => Except.ok true⟩ "api/users"
      = .ok .notFound :=
  (serve_spa_api_prefix_not_found ⟨fun _ => Except.ok true, fun _ => Except.ok true⟩
    "api/users" (by decide) (by decide)).1

/-- Claim C4 (divergence record): a fault raised by the step-5 candidate
file check is caught and falls through to the entry document, but a fault
raised by the step-6 entry-document existence check escapes `serve_spa`
uncaught — contradicting the function's own docstring, which promises
`Raises: None (all exceptions handled internally)`. -/
theorem serve_spa_index_io_fault_escapes :
    serve_spa ⟨fun _ => Except.error "EACCES", fun _ => Except.ok true⟩ "about"
      = .ok .index ∧
    serve_spa ⟨fun _ => Except.ok false, fun _ => Except.error "EACCES"⟩ "about"
      = .error "EACCES" := by
  constructor <;> rfl

/-- Claim C7: at host initialization with a missing asset-root directory,
`create_app` aborts fatally under the PRODUCTION profile (also when the
profile variable is absent, which defaults to production) and only warns
and continues under the DEVELOPMENT and TESTING profiles. -/
theorem create_app_build_dir_check :
    (create_app_startup false none).isFatal = true ∧
    (create_app_startup false (some "PRODUCTION")).isFatal = true ∧
    create_app_startup false (some "DEVELOPMENT") = .warned ∧
    create_app_startup false (some "TESTING") = .warned ∧
    (create_app_startup false (some "DEVELOPMENT")).isFatal = false ∧
    (create_app_startup false (some "TESTING")).isFatal = false := by
  decide

/-- Counterexample to claim C2 as stated: even against a perfectly
reachable database, `GET /health/db` never takes the 503 "unreachable"
branch — the `ImportError` from `from config import get_db_settings`
fires when `database.py` is imported (through `health.py`, at app
startup), so the handler is never served and no payload of either kind
is produced. -/
theorem health_db_503_claim_false :
    Health.serve_health_db true ≠ .ok Health.db_unhealthy ∧
    Health.serve_health_db true ≠ .ok Health.db_healthy ∧
    Health.serve_health_db true
      = .error "ImportError: cannot import name get_db_settings from config" := by
  decide

/-- Claim C2 as amended: the name `get_db_settings` that
`infrastructure/persistence/database.py` imports is defined by neither
configuration module, so loading `database.py` — and with it `health.py`
and app creation — fails at import time: the storage health probe can
never return its 200 "connected" outcome, but not because it answers
503; the `ImportError` escapes at startup and the probe is never served
at all, whatever the database would have answered. -/
theorem health_db_probe_unservable :
    (SrcConfig.module_names.contains "get_db_settings" = false ∧
      BackendConfig.module_names.contains "get_db_settings" = false) ∧
    (∀ dbRoundTrip : Bool,
      Health.serve_health_db dbRoundTrip
        = .error "ImportError: cannot import name get_db_settings from config" ∧
      Health.serve_health_db dbRoundTrip ≠ .ok Health.db_healthy ∧
      Health.serve_health_db dbRoundTrip ≠ .ok Health.db_unhealthy) := by
  refine ⟨by decide, fun b => ?_⟩
  cases b <;> exact ⟨rfl, by decide, by decide⟩

/-- Counterexample to claim C3 as stated: a 304 response has a non-2xx
status, yet the probe reports it as healthy/reachable with 200 instead of
the claimed 503, because `raise_for_status` only raises for statuses in
[400, 600). -/
theorem health_github_non2xx_claim_false :
    ¬(200 ≤ 304 ∧ 304 < 300) ∧
    Health.health_github (.response 304) = Health.github_healthy ∧
    Health.health_github (.response 304) ≠ Health.github_unhealthy := by
  decide

/-- Claim C3 as amended: the probe returns the 503 "unreachable" payload
exactly on a transport-level failure or a response status in [400, 600)
(4xx/5xx); every other received status — 2xx but also 3xx — yields the
200 "reachable" payload; the probe is total, so no exception escapes its
boundary. -/
theorem health_github_amended (r : Health.HttpResult) :
    (Health.health_github r = Health.github_healthy ∨
      Health.health_github r = Health.github_unhealthy) ∧
    (Health.health_github r = Health.github_unhealthy ↔
      (∃ e, r = Health.HttpResult.transportFailure e) ∨
      (∃ s, r = Health.HttpResult.response s ∧ 400 ≤ s ∧ s < 600)) := by
  cases r with
  | transportFailure e =>
    exact ⟨Or.inr rfl, ⟨fun _ => Or.inl ⟨e, rfl⟩, fun _ => rfl⟩⟩
  | response s =>
    by_cases h : 400 ≤ s ∧ s < 600
    · have hg : Health.health_github (.response s) = Health.github_unhealthy := by
        simp [Health.health_github, Health.raise_for_status, h]
      exact ⟨Or.inr hg, ⟨fun _ => Or.inr ⟨s, rfl, h⟩, fun _ => hg⟩⟩
    · have hg : Health.health_github (.response s) = Health.github_healthy := by
        simp [Health.health_github, Health.raise_for_status, h]
      refine ⟨Or.inl hg, ⟨fun hc => ?_, fun hc => ?_⟩⟩
      · exact absurd (hg.symm.trans hc) (by decide)
      · rcases hc with ⟨e, he⟩ | ⟨s2, hs2, hrange⟩
        · cases he
        · cases hs2
          exact absurd hrange h

/-- Counterexample to claim C5 as stated: in the top-level `config.py`,
the PRODUCTION variant does not read unprefixed variable names — its
store-name variable is `CPANEL_DB_NAME`, and construction fails even when
the unprefixed `DB_NAME`/`DB_USER`/`DB_PASSWORD` are all set. -/
theorem production_unprefixed_claim_false :
    SrcConfig.envVarName .PRODUCTION "DB_NAME" = "CPANEL_DB_NAME" ∧
    SrcConfig.envVarName .PRODUCTION "DB_NAME" ≠ "DB_NAME" ∧
    SrcConfig.constructSettings .PRODUCTION
        [("DB_NAME", "blog"), ("DB_USER", "u"), ("DB_PASSWORD", "p")]
      = .error ["DB_NAME", "DB_USER", "DB_PASSWORD"] := by
  decide

/-- Claim C5 as amended: each profile reads its required fields under its
own namespace, but the PRODUCTION namespace is unprefixed only in
`backend/config.py`; in the top-level `config.py` it carries the
`CPANEL_` prefix (and that module has no TESTING variant).  The
DEVELOPMENT and TESTING variants use the `LOCAL_` prefix in both
modules.  Construction under the correct namespace succeeds and reads
those variables. -/
theorem config_env_namespaces :
    (BackendConfig.pfxOf .PRODUCTION = "" ∧
      BackendConfig.pfxOf .DEVELOPMENT = "LOCAL_" ∧
      BackendConfig.pfxOf .TESTING = "LOCAL_" ∧
      SrcConfig.pfxOf .PRODUCTION = "CPANEL_" ∧
      SrcConfig.pfxOf .DEVELOPMENT = "LOCAL_") ∧
    BackendConfig.constructSettings .PRODUCTION
        [("DB_NAME", "n"), ("DB_USER", "u"), ("DB_PASSWORD", "p")]
      = .ok ⟨"localhost", "n", "u", "p", .PRODUCTION⟩ ∧
    BackendConfig.constructSettings .DEVELOPMENT
        [("LOCAL_DB_NAME", "n"), ("LOCAL_DB_USER", "u"), ("LOCAL_DB_PASSWORD", "p")]
      = .ok ⟨"localhost", "n", "u", "p", .DEVELOPMENT⟩ ∧
    BackendConfig.constructSettings .TESTING
        [("LOCAL_DB_NAME", "n"), ("LOCAL_DB_USER", "u"), ("LOCAL_DB_PASSWORD", "p")]
      = .ok ⟨"localhost", "n", "u", "p", .TESTING⟩ ∧
    SrcConfig.constructSettings .PRODUCTION
        [("CPANEL_DB_NAME", "n"), ("CPANEL_DB_USER", "u"), ("CPANEL_DB_PASSWORD", "p")]
      = .ok ⟨"localhost", "n", "u", "p", .PRODUCTION⟩ ∧
    SrcConfig.constructSettings .DEVELOPMENT
        [("LOCAL_DB_NAME", "n"), ("LOCAL_DB_USER", "u"), ("LOCAL_DB_PASSWORD", "p")]
      = .ok ⟨"localhost", "n", "u", "p", .DEVELOPMENT⟩ := by
  decide

/-- Counterexample to claim C6 as stated: with an absent hint, the
unrecognized value `garbage` in the `FLASK_ENV` environment variable, and
all required production credentials present, resolution does not return
the PRODUCTION settings — the fallback construction raises a validation
error on the `FLASK_ENV` field. -/
theorem db_settings_fallback_raises :
    BackendConfig.FlaskEnv.ofString "garbage" = none ∧
    BackendConfig._db_settings none
        [("FLASK_ENV", "garbage"), ("DB_NAME", "blog"),
         ("DB_USER", "bloguser"), ("DB_PASSWORD", "pw")]
      = .error ["FLASK_ENV"] := by
  decide

/-- Claim C6 as amended: an unrecognized or absent profile hint makes the
registry lookup fall back to the PRODUCTION variant without a lookup
error — resolution behaves exactly as constructing the production
settings on the same environment; but the construction itself can still
fail (in particular, when the `FLASK_ENV` variable holds an unrecognized
value, its field validation raises), so resolution is raise-free only up
to the production constructor. -/
theorem db_settings_unrecognized_falls_back
    (flask_env : Option String) (environ : List (String × String))
    (h : BackendConfig.hintUnrecognized flask_env environ = true) :
    BackendConfig.selectedVariant flask_env environ = .PRODUCTION ∧
    BackendConfig._db_settings flask_env environ
      = BackendConfig.constructSettings .PRODUCTION environ := by
  unfold BackendConfig.hintUnrecognized at h
  unfold BackendConfig.selectedVariant BackendConfig._db_settings
  cases heff : BackendConfig.effectiveHint flask_env environ with
  | none => exact ⟨rfl, rfl⟩
  | some s =>
    rw [heff] at h
    have hnone : BackendConfig.FlaskEnv.ofString s = none := by
      simpa using h
    simp [hnone]

/-- Witness for C6 (amended) at the explicit unrecognized hint `STAGING`
with the production credentials set. -/
theorem db_settings_unrecognized_falls_back_witness :
    BackendConfig.selectedVariant (some "STAGING")
        [("DB_NAME", "n"), ("DB_USER", "u"), ("DB_PASSWORD", "p")]
      = .PRODUCTION ∧
    BackendConfig._db_settings (some "STAGING")
        [("DB_NAME", "n"), ("DB_USER", "u"), ("DB_PASSWORD", "p")]
      = BackendConfig.constructSettings .PRODUCTION
        [("DB_NAME", "n"), ("DB_USER", "u"), ("DB_PASSWORD", "p")] :=
  db_settings_unrecognized_falls_back (some "STAGING")
    [("DB_NAME", "n"), ("DB_USER", "u"), ("DB_PASSWORD", "p")] (by decide)

/-- Claim C8: if any of the required fields (store name, user, secret)
is absent from the environment, settings construction fails with a
validation error naming each missing required field (and naming no
required field that is present); with the required fields set and the
host variable absent, the host defaults to `localhost`. -/
theorem settings_validation_and_host_default :
    (∀ (e : BackendConfig.FlaskEnv) (environ : List (String × String))
        (f0 : String),
      f0 ∈ ["DB_NAME", "DB_USER", "DB_PASSWORD"] →
      lookupEnv environ (BackendConfig.pfxOf e ++ f0) = none →
      ∃ l, BackendConfig.constructSettings e environ = .error l ∧
        (∀ f, f ∈ ["DB_NAME", "DB_USER", "DB_PASSWORD"] →
          (f ∈ l ↔ lookupEnv environ (BackendConfig.pfxOf e ++ f) = none))) ∧
    (∀ (e : BackendConfig.FlaskEnv) (environ : List (String × String))
        (n u p : String),
      lookupEnv environ (BackendConfig.pfxOf e ++ "DB_NAME") = some n →
      lookupEnv environ (BackendConfig.pfxOf e ++ "DB_USER") = some u →
      lookupEnv environ (BackendConfig.pfxOf e ++ "DB_PASSWORD") = some p →
      lookupEnv environ (BackendConfig.pfxOf e ++ "FLASK_ENV") = none →
      lookupEnv environ "DB_HOST" = none →
      ∃ st, BackendConfig.constructSettings e environ = .ok st ∧
        st.DB_HOST = "localhost" ∧ st.DB_NAME = n ∧ st.DB_USER = u ∧
        st.DB_PASSWORD = p) := by
  constructor
  · intro e environ f0 hf0 habs
    have hmem : f0 ∈ BackendConfig.missingOf e environ := by
      unfold BackendConfig.missingOf
      rw [List.mem_filter]
      refine ⟨hf0, ?_⟩
      rw [habs]
      rfl
    have hne : (BackendConfig.missingOf e environ).isEmpty = false := by
      cases hm : BackendConfig.missingOf e environ with
      | nil => rw [hm] at hmem; cases hmem
      | cons a l => rfl
    have hcs : BackendConfig.constructSettings e environ
        = .error (BackendConfig.missingOf e environ ++
          (if BackendConfig.flaskEnvBadOf e environ then ["FLASK_ENV"] else [])) := by
      simp [BackendConfig.constructSettings, hne]
    refine ⟨_, hcs, ?_⟩
    intro f hf
    constructor
    · intro hfl
      rcases List.mem_append.mp hfl with hin | hin
      · unfold BackendConfig.missingOf at hin
        rw [List.mem_filter] at hin
        exact Option.isNone_iff_eq_none.mp hin.2
      · exfalso
        cases hb : BackendConfig.flaskEnvBadOf e environ with
        | false => rw [hb] at hin; simp at hin
        | true =>
          rw [hb] at hin
          simp at hin
          subst hin
          simp at hf
    · intro hnone
      apply List.mem_append_left
      unfold BackendConfig.missingOf
      rw [List.mem_filter]
      refine ⟨hf, ?_⟩
      rw [hnone]
      rfl
  · intro e environ n u p h1 h2 h3 h4 h5
    have hmiss : BackendConfig.missingOf e environ = [] := by
      simp [BackendConfig.missingOf, List.filter, h1, h2, h3]
    have hbad : BackendConfig.flaskEnvBadOf e environ = false := by
      simp [BackendConfig.flaskEnvBadOf, h4]
    have hcs : BackendConfig.constructSettings e environ
        = .ok ⟨"localhost", n, u, p, e⟩ := by
      simp [BackendConfig.constructSettings, hmiss, hbad, h1, h2, h3, h4, h5]
    exact ⟨_, hcs, rfl, rfl, rfl, rfl⟩

/-- Witness for C8: with only `DB_USER` set, production construction
fails with an error naming exactly the two missing required fields
(`DB_NAME` and `DB_PASSWORD`, not `DB_USER`); development construction
with only the three `LOCAL_`-prefixed credentials set defaults the host
to `localhost`. -/
theorem settings_validation_and_host_default_witness :
    (∃ l, BackendConfig.constructSettings .PRODUCTION [("DB_USER", "u")]
        = .error l ∧
      (∀ f, f ∈ ["DB_NAME", "DB_USER", "DB_PASSWORD"] →
        (f ∈ l ↔ lookupEnv [("DB_USER", "u")]
          (BackendConfig.pfxOf .PRODUCTION ++ f) = none))) ∧
    (∃ st, BackendConfig.constructSettings .DEVELOPMENT
        [("LOCAL_DB_NAME", "n"), ("LOCAL_DB_USER", "u"), ("LOCAL_DB_PASSWORD", "p")]
      = .ok st ∧ st.DB_HOST = "localhost" ∧ st.DB_NAME = "n" ∧
        st.DB_USER = "u" ∧ st.DB_PASSWORD = "p") :=
  ⟨settings_validation_and_host_default.1 .PRODUCTION [("DB_USER", "u")]
      "DB_NAME" (by decide) (by decide),
    settings_validation_and_host_default.2 .DEVELOPMENT
      [("LOCAL_DB_NAME", "n"), ("LOCAL_DB_USER", "u"), ("LOCAL_DB_PASSWORD", "p")]
      "n" "u" "p" (by decide) (by decide) (by decide) (by decide) (by decide)⟩

/-- Claim C10: the connection string is a pure, deterministic function of
the four fields host, user, secret and name — two settings instances that
agree on those fields (whatever their other field, `FLASK_ENV`, is)
produce the same `url` string. -/
theorem url_deterministic (s t : BackendConfig.DBSettings)
    (hh : s.DB_HOST = t.DB_HOST) (hu : s.DB_USER = t.DB_USER)
    (hp : s.DB_PASSWORD = t.DB_PASSWORD) (hn : s.DB_NAME = t.DB_NAME) :
    BackendConfig.DBSettings.url s = BackendConfig.DBSettings.url t := by
  unfold BackendConfig.DBSettings.url
  rw [hh, hu, hp, hn]

/-- Witness for C10: two settings equal on (host, user, secret, name) but
differing in `FLASK_ENV` yield the same connection string. -/
theorem url_deterministic_witness :
    BackendConfig.DBSettings.url
        ⟨"localhost", "blog_db", "blog_user", "secure_password", .PRODUCTION⟩
      = BackendConfig.DBSettings.url
        ⟨"localhost", "blog_db", "blog_user", "secure_password", .TESTING⟩ :=
  url_deterministic
    ⟨"localhost", "blog_db", "blog_user", "secure_password", .PRODUCTION⟩
    ⟨"localhost", "blog_db", "blog_user", "secure_password", .TESTING⟩
    rfl rfl rfl rfl

end BlogCode
